import Mathlib

set_option maxRecDepth 16000

/-!
Shallow embedding of the Streamlit employee-attrition prediction app
(`app.py`): model-artifact resolution, the compatibility-shim load
fallback, the prediction form's record assembly, and the rendering of
prediction results.

Python values that a model may return and that fill a record are modelled
by `PyVal` (integers or strings); probabilities from `predict_proba` are
modelled as rationals; fallible external calls (deserialization, the
model's `predict`/`predict_proba`) are modelled in `Except String`.
The Streamlit output surface (`st.error`, `st.success`, `st.warning`,
`st.write("---")`, `st.subheader`, `st.dataframe`, `st.stop`) is
modelled as a list of `Out` events.
-/

/-- A Python scalar value as used by this app: an int or a string. -/
inductive PyVal : Type
  | int (n : ℤ)
  | str (s : String)
deriving DecidableEq

/-- A single-row record, as built by `pd.DataFrame([{...}])` in `app.py`:
an ordered association list from column names to values. -/
abbrev Record : Type := List (String × PyVal)

/-- The visible Streamlit output events the script can emit. -/
inductive Out : Type
  | errorBox (s : String)
  | successBox (s : String)
  | warningBox (s : String)
  | writeRule
  | subheader (s : String)
  | dataframe (r : Record)
  | stop
deriving DecidableEq

/-- The ordered candidate artifact list from `app.py` (`MODEL_CANDIDATES`). -/
def MODEL_CANDIDATES : List String :=
  ["attrition_model.joblib",
   "employee-attrition.joblib",
   "employee-attrition.pkl",
   "attrition_model.pkl"]

/-- The `for fname in MODEL_CANDIDATES: if os.path.exists(fname): found = fname; break`
loop: scan the candidates in declared order and return the first whose file
exists. `ex` is the `os.path.exists` oracle; the loop consults nothing else
(in particular no directory enumeration). -/
def findFound (ex : String → Bool) : List String → Option String
  | [] => none
  | f :: rest => if ex f then some f else findFound ex rest

/-- The error message shown when no candidate model file exists (app.py line 26). -/
def noModelMsg : String :=
  "❌ No trained model found. Place one of the model files in the app folder: 'attrition_model.joblib', 'employee-attrition.joblib', 'employee-attrition.pkl', or 'attrition_model.pkl'."

/-- The resolver phase (app.py lines 17-28): pick the first existing candidate;
if none exists, emit the error and `st.stop`. Returns the emitted output events
and the selected filename (`found`), if any. -/
def resolvePhase (ex : String → Bool) : List Out × Option String :=
  match findFound ex MODEL_CANDIDATES with
  | none => ([Out.errorBox noModelMsg, Out.stop], none)
  | some f => ([], some f)

/-- The quote character, `Char.ofNat 39`. -/
def quoteChar : Char := Char.ofNat 39

/-- Match a literal pattern at the head of an input; on success return the rest. -/
def matchLit : List Char → List Char → Option (List Char)
  | [], s => some s
  | _ :: _, [] => none
  | p :: ps, c :: cs => if p = c then matchLit ps cs else none

/-- Greedily take the maximal run of non-quote characters (the regex `[^']+`
capture, which cannot cross a quote), returning the run and the rest. -/
def takeNonQuote : List Char → List Char × List Char
  | [] => ([], [])
  | c :: cs =>
    if c = quoteChar then ([], c :: cs)
    else
      let r := takeNonQuote cs
      (c :: r.1, r.2)

/-- Try to match, at this exact position, the regex from app.py line 43:
`Can't get attribute '(?P<attr>[^']+)' on <module '(?P<mod>[^']+)'`.
On success return the `(attr, mod)` captures. -/
def matchPatAt (s : List Char) : Option (String × String) :=
  match matchLit "Can't get attribute '".toList s with
  | none => none
  | some r1 =>
    let a := takeNonQuote r1
    if a.1 = [] then none
    else
      match matchLit "' on <module '".toList a.2 with
      | none => none
      | some r2 =>
        let b := takeNonQuote r2
        if b.1 = [] then none
        else
          match matchLit [quoteChar] b.2 with
          | none => none
          | some _ => some (String.mk a.1, String.mk b.1)

/-- `re.search`: try the pattern at each position from the left, returning the
leftmost match. -/
def searchPat : List Char → Option (String × String)
  | [] => none
  | c :: cs =>
    match matchPatAt (c :: cs) with
    | some r => some r
    | none => searchPat cs

/-- `re.search(r"Can't get attribute '(?P<attr>[^']+)' on <module '(?P<mod>[^']+)'", msg)`
from app.py line 43, returning the `(attr, mod)` captures when the message matches. -/
def searchAttrPattern (msg : String) : Option (String × String) :=
  searchPat msg.toList

/-- `found.endswith(".joblib")` (app.py line 31). -/
def endsWithJoblib (s : String) : Bool :=
  ".joblib".toList.isSuffixOf s.toList

/-- Outcome of one deserialization attempt (`joblib.load` / `pickle.load`):
success, an `AttributeError` with message, or any other exception with message. -/
inductive LoadOutcome : Type
  | success
  | attrError (msg : String)
  | otherError (msg : String)
deriving DecidableEq

/-- The external behaviour of the selected artifact and environment during
loading: the outcome of the first deserialization attempt, whether the shim
setup (`importlib.import_module` + `setattr`) succeeds (`none`) or raises with
a message (`some msg`), and the outcome of the retry attempt (consulted only
if a retry happens). -/
structure DeserEnv : Type where
  firstLoad : LoadOutcome
  shimSetup : Option String
  retryLoad : LoadOutcome
deriving DecidableEq

/-- Observable trace of the shim machinery: the `(module, attribute)` pairs
under which a placeholder class was registered by `setattr`, and how many
reload retries were performed. -/
structure LoadTrace : Type where
  registrations : List (String × String)
  retries : ℕ
deriving DecidableEq

/-- Final state of the load phase: a model is loaded, or the process halted. -/
inductive LoadResult : Type
  | loaded
  | halted
deriving DecidableEq

/-- app.py line 52. -/
def shimWarnMsg (attr mod : String) : String :=
  "Compatibility shim: created placeholder " ++ attr ++ " in module " ++ mod ++ "; retrying model load."

/-- app.py line 55. -/
def shimFailMsg (attr mod e2 : String) : String :=
  "Failed to create compatibility shim for '" ++ attr ++ "' in module '" ++ mod ++ "': " ++ e2

/-- app.py line 58. -/
def joblibFailMsg (found e : String) : String :=
  "Failed to load joblib model '" ++ found ++ "': " ++ e

/-- app.py line 65. -/
def outerFailMsg (found e : String) : String :=
  "Failed to load model '" ++ found ++ "': " ++ e

/-- The model-loading phase, app.py lines 30-66, for the selected file `found`.

For a `.joblib` file: try `joblib.load`; on `AttributeError`, search the
message for the missing-attribute pattern; on a match, register one
placeholder class (`setattr(mod, missing_attr, placeholder)`), warn, and retry
`joblib.load` exactly once; a failed retry (or failed shim setup) reports the
shim error and stops; a non-matching `AttributeError` reports the joblib error
and stops; any non-`AttributeError` exception propagates to the outer handler.
For any other file: `pickle.load`, whose failures all propagate to the outer
handler, which reports `outerFailMsg` and stops. No shim and no retry exist on
this path.

One behavioural subtlety is modelled faithfully: `st.stop()` raises
Streamlit's `StopException`, a subclass of `Exception`, so an `st.stop()`
executed *inside* the inner `except AttributeError` handler is caught by the
outer `except Exception` (line 64), which then emits one extra
`outerFailMsg found ""` error box (the `StopException` stringifies to `""`)
before its own `st.stop()` halts for good.

Returns the emitted output events, the final result, and the shim trace. -/
def loadModel (found : String) (env : DeserEnv) : List Out × LoadResult × LoadTrace :=
  if endsWithJoblib found then
    match env.firstLoad with
    | LoadOutcome.success => ([], LoadResult.loaded, ⟨[], 0⟩)
    | LoadOutcome.otherError msg =>
      ([Out.errorBox (outerFailMsg found msg), Out.stop], LoadResult.halted, ⟨[], 0⟩)
    | LoadOutcome.attrError msg =>
      match searchAttrPattern msg with
      | none =>
        ([Out.errorBox (joblibFailMsg found msg),
          Out.errorBox (outerFailMsg found ""), Out.stop], LoadResult.halted, ⟨[], 0⟩)
      | some (attr, mod) =>
        match env.shimSetup with
        | some e2 =>
          ([Out.errorBox (shimFailMsg attr mod e2),
            Out.errorBox (outerFailMsg found ""), Out.stop], LoadResult.halted, ⟨[], 0⟩)
        | none =>
          match env.retryLoad with
          | LoadOutcome.success =>
            ([Out.warningBox (shimWarnMsg attr mod)], LoadResult.loaded, ⟨[(mod, attr)], 1⟩)
          | LoadOutcome.attrError m2 =>
            ([Out.warningBox (shimWarnMsg attr mod),
              Out.errorBox (shimFailMsg attr mod m2),
              Out.errorBox (outerFailMsg found ""), Out.stop], LoadResult.halted, ⟨[(mod, attr)], 1⟩)
          | LoadOutcome.otherError m2 =>
            ([Out.warningBox (shimWarnMsg attr mod),
              Out.errorBox (shimFailMsg attr mod m2),
              Out.errorBox (outerFailMsg found ""), Out.stop], LoadResult.halted, ⟨[(mod, attr)], 1⟩)
  else
    match env.firstLoad with
    | LoadOutcome.success => ([], LoadResult.loaded, ⟨[], 0⟩)
    | LoadOutcome.attrError msg =>
      ([Out.errorBox (outerFailMsg found msg), Out.stop], LoadResult.halted, ⟨[], 0⟩)
    | LoadOutcome.otherError msg =>
      ([Out.errorBox (outerFailMsg found msg), Out.stop], LoadResult.halted, ⟨[], 0⟩)

/-- The current values of the ~30 input widgets (app.py lines 84-124).
Streamlit guarantees each `st.number_input` value respects its declared
`min_value`/`max_value` and each `st.selectbox` value is one of its options;
`WidgetState.valid` states exactly those guarantees. -/
structure WidgetState : Type where
  Age : ℤ
  DailyRate : ℤ
  DistanceFromHome : ℤ
  Education : ℤ
  EnvironmentSatisfaction : ℤ
  HourlyRate : ℤ
  JobInvolvement : ℤ
  JobLevel : ℤ
  JobSatisfaction : ℤ
  MonthlyIncome : ℤ
  MonthlyRate : ℤ
  NumCompaniesWorked : ℤ
  PercentSalaryHike : ℤ
  PerformanceRating : ℤ
  RelationshipSatisfaction : ℤ
  StockOptionLevel : ℤ
  TotalWorkingYears : ℤ
  TrainingTimesLastYear : ℤ
  WorkLifeBalance : ℤ
  YearsAtCompany : ℤ
  YearsInCurrentRole : ℤ
  YearsSinceLastPromotion : ℤ
  YearsWithCurrManager : ℤ
  BusinessTravel : String
  Department : String
  EducationField : String
  Gender : String
  JobRole : String
  MaritalStatus : String
  OverTime : String
deriving DecidableEq

/-- The widget domains declared in app.py lines 84-124: each `number_input`
value lies within its declared `min_value`/`max_value` bounds, and each
`selectbox` value is one of its listed options. -/
def WidgetState.valid (w : WidgetState) : Prop :=
  (18 ≤ w.Age ∧ w.Age ≤ 60) ∧
  0 ≤ w.DailyRate ∧
  0 ≤ w.DistanceFromHome ∧
  w.Education ∈ ([1, 2, 3, 4, 5] : List ℤ) ∧
  w.EnvironmentSatisfaction ∈ ([1, 2, 3, 4] : List ℤ) ∧
  0 ≤ w.HourlyRate ∧
  w.JobInvolvement ∈ ([1, 2, 3, 4] : List ℤ) ∧
  w.JobLevel ∈ ([1, 2, 3, 4, 5] : List ℤ) ∧
  w.JobSatisfaction ∈ ([1, 2, 3, 4] : List ℤ) ∧
  (1000 ≤ w.MonthlyIncome ∧ w.MonthlyIncome ≤ 20000) ∧
  (1000 ≤ w.MonthlyRate ∧ w.MonthlyRate ≤ 30000) ∧
  0 ≤ w.NumCompaniesWorked ∧
  0 ≤ w.PercentSalaryHike ∧
  w.PerformanceRating ∈ ([1, 2, 3, 4] : List ℤ) ∧
  w.RelationshipSatisfaction ∈ ([1, 2, 3, 4] : List ℤ) ∧
  w.StockOptionLevel ∈ ([0, 1, 2, 3] : List ℤ) ∧
  0 ≤ w.TotalWorkingYears ∧
  0 ≤ w.TrainingTimesLastYear ∧
  w.WorkLifeBalance ∈ ([1, 2, 3, 4] : List ℤ) ∧
  0 ≤ w.YearsAtCompany ∧
  0 ≤ w.YearsInCurrentRole ∧
  0 ≤ w.YearsSinceLastPromotion ∧
  0 ≤ w.YearsWithCurrManager ∧
  w.BusinessTravel ∈ ["Travel_Rarely", "Travel_Frequently", "Non-Travel"] ∧
  w.Department ∈ ["Sales", "Research & Development", "Human Resources"] ∧
  w.EducationField ∈ ["Life Sciences", "Medical", "Marketing", "Technical Degree", "Human Resources", "Other"] ∧
  w.Gender ∈ ["Male", "Female"] ∧
  w.JobRole ∈ ["Sales Executive", "Research Scientist", "Laboratory Technician",
    "Manufacturing Director", "Healthcare Representative",
    "Manager", "Sales Representative", "Research Director", "Human Resources"] ∧
  w.MaritalStatus ∈ ["Single", "Married", "Divorced"] ∧
  w.OverTime ∈ ["Yes", "No"]

/-- The declared default of every widget (the `value=` argument of each
`number_input`; the first option of each `selectbox`). -/
def defaultWidgets : WidgetState :=
  { Age := 30
    DailyRate := 800
    DistanceFromHome := 5
    Education := 1
    EnvironmentSatisfaction := 1
    HourlyRate := 60
    JobInvolvement := 1
    JobLevel := 1
    JobSatisfaction := 1
    MonthlyIncome := 5000
    MonthlyRate := 10000
    NumCompaniesWorked := 2
    PercentSalaryHike := 10
    PerformanceRating := 1
    RelationshipSatisfaction := 1
    StockOptionLevel := 0
    TotalWorkingYears := 5
    TrainingTimesLastYear := 2
    WorkLifeBalance := 1
    YearsAtCompany := 3
    YearsInCurrentRole := 2
    YearsSinceLastPromotion := 1
    YearsWithCurrManager := 2
    BusinessTravel := "Travel_Rarely"
    Department := "Sales"
    EducationField := "Life Sciences"
    Gender := "Male"
    JobRole := "Sales Executive"
    MaritalStatus := "Single"
    OverTime := "Yes" }

/-- The single-row input DataFrame built from the current widget values
(app.py lines 129-160), with the exact column order of the source dict. -/
def input_data (w : WidgetState) : Record :=
  [("Age", PyVal.int w.Age),
   ("DailyRate", PyVal.int w.DailyRate),
   ("DistanceFromHome", PyVal.int w.DistanceFromHome),
   ("Education", PyVal.int w.Education),
   ("EnvironmentSatisfaction", PyVal.int w.EnvironmentSatisfaction),
   ("HourlyRate", PyVal.int w.HourlyRate),
   ("JobInvolvement", PyVal.int w.JobInvolvement),
   ("JobLevel", PyVal.int w.JobLevel),
   ("JobSatisfaction", PyVal.int w.JobSatisfaction),
   ("MonthlyIncome", PyVal.int w.MonthlyIncome),
   ("MonthlyRate", PyVal.int w.MonthlyRate),
   ("NumCompaniesWorked", PyVal.int w.NumCompaniesWorked),
   ("PercentSalaryHike", PyVal.int w.PercentSalaryHike),
   ("PerformanceRating", PyVal.int w.PerformanceRating),
   ("RelationshipSatisfaction", PyVal.int w.RelationshipSatisfaction),
   ("StockOptionLevel", PyVal.int w.StockOptionLevel),
   ("TotalWorkingYears", PyVal.int w.TotalWorkingYears),
   ("TrainingTimesLastYear", PyVal.int w.TrainingTimesLastYear),
   ("WorkLifeBalance", PyVal.int w.WorkLifeBalance),
   ("YearsAtCompany", PyVal.int w.YearsAtCompany),
   ("YearsInCurrentRole", PyVal.int w.YearsInCurrentRole),
   ("YearsSinceLastPromotion", PyVal.int w.YearsSinceLastPromotion),
   ("YearsWithCurrManager", PyVal.int w.YearsWithCurrManager),
   ("BusinessTravel", PyVal.str w.BusinessTravel),
   ("Department", PyVal.str w.Department),
   ("EducationField", PyVal.str w.EducationField),
   ("Gender", PyVal.str w.Gender),
   ("JobRole", PyVal.str w.JobRole),
   ("MaritalStatus", PyVal.str w.MaritalStatus),
   ("OverTime", PyVal.str w.OverTime)]

/-- Column lookup on a record: the value stored under `name`, if present. -/
def getField : Record → String → Option PyVal
  | [], _ => none
  | (k, v) :: rest, name => if k = name then some v else getField rest name

/-- The schema's column names, in the dict order of app.py lines 129-160. -/
def schemaFields : List String :=
  ["Age", "DailyRate", "DistanceFromHome", "Education", "EnvironmentSatisfaction",
   "HourlyRate", "JobInvolvement", "JobLevel", "JobSatisfaction", "MonthlyIncome",
   "MonthlyRate", "NumCompaniesWorked", "PercentSalaryHike", "PerformanceRating",
   "RelationshipSatisfaction", "StockOptionLevel", "TotalWorkingYears",
   "TrainingTimesLastYear", "WorkLifeBalance", "YearsAtCompany", "YearsInCurrentRole",
   "YearsSinceLastPromotion", "YearsWithCurrManager", "BusinessTravel", "Department",
   "EducationField", "Gender", "JobRole", "MaritalStatus", "OverTime"]

/-- A numeric column is present and its integer value satisfies `P`. -/
def intFieldOk (r : Record) (name : String) (P : ℤ → Prop) : Prop :=
  ∃ n, getField r name = some (PyVal.int n) ∧ P n

/-- A categorical column is present and its string value satisfies `P`. -/
def strFieldOk (r : Record) (name : String) (P : String → Prop) : Prop :=
  ∃ s, getField r name = some (PyVal.str s) ∧ P s

/-- A record is schema-complete and in-domain: its columns are exactly the
schema columns in order, and every stored value lies in the domain its widget
declares (app.py lines 84-124). -/
def recordValid (r : Record) : Prop :=
  r.map Prod.fst = schemaFields ∧
  intFieldOk r "Age" (fun n => 18 ≤ n ∧ n ≤ 60) ∧
  intFieldOk r "DailyRate" (fun n => 0 ≤ n) ∧
  intFieldOk r "DistanceFromHome" (fun n => 0 ≤ n) ∧
  intFieldOk r "Education" (fun n => n ∈ ([1, 2, 3, 4, 5] : List ℤ)) ∧
  intFieldOk r "EnvironmentSatisfaction" (fun n => n ∈ ([1, 2, 3, 4] : List ℤ)) ∧
  intFieldOk r "HourlyRate" (fun n => 0 ≤ n) ∧
  intFieldOk r "JobInvolvement" (fun n => n ∈ ([1, 2, 3, 4] : List ℤ)) ∧
  intFieldOk r "JobLevel" (fun n => n ∈ ([1, 2, 3, 4, 5] : List ℤ)) ∧
  intFieldOk r "JobSatisfaction" (fun n => n ∈ ([1, 2, 3, 4] : List ℤ)) ∧
  intFieldOk r "MonthlyIncome" (fun n => 1000 ≤ n ∧ n ≤ 20000) ∧
  intFieldOk r "MonthlyRate" (fun n => 1000 ≤ n ∧ n ≤ 30000) ∧
  intFieldOk r "NumCompaniesWorked" (fun n => 0 ≤ n) ∧
  intFieldOk r "PercentSalaryHike" (fun n => 0 ≤ n) ∧
  intFieldOk r "PerformanceRating" (fun n => n ∈ ([1, 2, 3, 4] : List ℤ)) ∧
  intFieldOk r "RelationshipSatisfaction" (fun n => n ∈ ([1, 2, 3, 4] : List ℤ)) ∧
  intFieldOk r "StockOptionLevel" (fun n => n ∈ ([0, 1, 2, 3] : List ℤ)) ∧
  intFieldOk r "TotalWorkingYears" (fun n => 0 ≤ n) ∧
  intFieldOk r "TrainingTimesLastYear" (fun n => 0 ≤ n) ∧
  intFieldOk r "WorkLifeBalance" (fun n => n ∈ ([1, 2, 3, 4] : List ℤ)) ∧
  intFieldOk r "YearsAtCompany" (fun n => 0 ≤ n) ∧
  intFieldOk r "YearsInCurrentRole" (fun n => 0 ≤ n) ∧
  intFieldOk r "YearsSinceLastPromotion" (fun n => 0 ≤ n) ∧
  intFieldOk r "YearsWithCurrManager" (fun n => 0 ≤ n) ∧
  strFieldOk r "BusinessTravel" (fun s => s ∈ ["Travel_Rarely", "Travel_Frequently", "Non-Travel"]) ∧
  strFieldOk r "Department" (fun s => s ∈ ["Sales", "Research & Development", "Human Resources"]) ∧
  strFieldOk r "EducationField" (fun s =>
    s ∈ ["Life Sciences", "Medical", "Marketing", "Technical Degree", "Human Resources", "Other"]) ∧
  strFieldOk r "Gender" (fun s => s ∈ ["Male", "Female"]) ∧
  strFieldOk r "JobRole" (fun s =>
    s ∈ ["Sales Executive", "Research Scientist", "Laboratory Technician",
      "Manufacturing Director", "Healthcare Representative",
      "Manager", "Sales Representative", "Research Director", "Human Resources"]) ∧
  strFieldOk r "MaritalStatus" (fun s => s ∈ ["Single", "Married", "Divorced"]) ∧
  strFieldOk r "OverTime" (fun s => s ∈ ["Yes", "No"])

/-- The model as seen by the form: `predict` and `predict_proba` take the
single-row record and either return a result (a row of labels; a matrix of
probabilities) or raise an exception with a message. -/
structure PyModel : Type where
  predict : Record → Except String (List PyVal)
  predict_proba : Record → Except String (List (List ℚ))

/-- Python list indexing `l[i]`: raises `IndexError` when out of range. -/
def listIndex {α : Type} (l : List α) (i : ℕ) : Except String α :=
  match l.get? i with
  | some a => Except.ok a
  | none => Except.error "list index out of range"

/-- The computations inside the `try:` of the predict handler (app.py
lines 167-168), in Python's evaluation order: `model.predict(input_data)[0]`,
then `model.predict_proba(input_data)[0][1]`; the first exception wins. -/
def predChain (m : PyModel) (r : Record) : Except String (PyVal × ℚ) :=
  match m.predict r with
  | Except.error e => Except.error e
  | Except.ok preds =>
    match listIndex preds 0 with
    | Except.error e => Except.error e
    | Except.ok prediction =>
      match m.predict_proba r with
      | Except.error e => Except.error e
      | Except.ok probas =>
        match listIndex probas 0 with
        | Except.error e => Except.error e
        | Except.ok row =>
          match listIndex row 1 with
          | Except.error e => Except.error e
          | Except.ok prob => Except.ok (prediction, prob)

/-- An exception with message `e` is raised during one of the two prediction
calls: either `model.predict` raises, or it succeeds (with an indexable
result) and `model.predict_proba` raises. -/
def predRaises (m : PyModel) (r : Record) (e : String) : Prop :=
  m.predict r = Except.error e ∨
  (∃ preds v, m.predict r = Except.ok preds ∧ listIndex preds 0 = Except.ok v ∧
    m.predict_proba r = Except.error e)

/-- An exception during `predict` or `predict_proba` makes the whole guarded
computation of the handler fail with that message. -/
theorem predChain_error_of (m : PyModel) (r : Record) (e : String)
    (h : predRaises m r e) : predChain m r = Except.error e := by
  rcases h with h | ⟨preds, v, h1, h2, h3⟩
  · simp [predChain, h]
  · simp [predChain, h1, h2, h3]

/-- The branch condition of app.py line 170:
`prediction == "Yes" or prediction == 1`. -/
def isLeave (v : PyVal) : Bool :=
  decide (v = PyVal.str "Yes") || decide (v = PyVal.int 1)

/-- `⌊q * 100 + 1/2⌋`, computed from the reduced numerator/denominator of
`q * 100` with floor division: the number of hundredths after rounding to
the nearest one (half rounds up). -/
def halfUpCents (q : ℚ) : ℤ :=
  Int.fdiv (2 * (q * 100).num + ((q * 100).den : ℤ)) (2 * ((q * 100).den : ℤ))

/-- Python `f"{q:.2f}"` on a rational: round to the nearest hundredth and
print with exactly two fractional digits. (Python rounds the underlying
binary double to nearest; away from exact decimal midpoints — as in every
value this development evaluates — the two agree. Used here only on
probabilities in `[0, 1]`, so no sign subtleties arise.) -/
def format2 (q : ℚ) : String :=
  let n : ℤ := halfUpCents q
  let r : ℕ := (Int.emod n 100).toNat
  toString (Int.ediv n 100) ++ "." ++ (if r < 10 then "0" ++ toString r else toString r)

/-- app.py line 171. -/
def leaveMsg (prob : ℚ) : String :=
  "⚠️ The employee is **likely to leave**. (Probability: " ++ format2 prob ++ ")"

/-- app.py line 173. -/
def stayMsg (prob : ℚ) : String :=
  "✅ The employee is **likely to stay**. (Leave Probability: " ++ format2 prob ++ ")"

/-- One press of the predict button (app.py lines 165-180): run the prediction
chain; on success render the decision box, the rule, the subheader, and the
echoed input record; on any exception render only the failure message. The
handler never calls `st.stop`. -/
def runPrediction (m : PyModel) (r : Record) : List Out :=
  match predChain m r with
  | Except.error e => [Out.errorBox ("Prediction failed: " ++ e)]
  | Except.ok (prediction, prob) =>
    (if isLeave prediction then [Out.errorBox (leaveMsg prob)]
     else [Out.successBox (stayMsg prob)])
      ++ [Out.writeRule, Out.subheader "🧠 Model Input Data", Out.dataframe r]

/-- Two sequential predict-button presses against the same loaded model: each
script rerun rebuilds `input_data` from the widget values current at that run. -/
def runTwo (m : PyModel) (w1 w2 : WidgetState) : List Out × List Out :=
  (runPrediction m (input_data w1), runPrediction m (input_data w2))

/-- A stub model returning fixed values regardless of the record. -/
def stubModel (pred : List PyVal) (proba : List (List ℚ)) : PyModel :=
  ⟨fun _ => Except.ok pred, fun _ => Except.ok proba⟩

/-- A stub model whose `predict` raises. -/
def failingStub (e : String) : PyModel :=
  ⟨fun _ => Except.error e, fun _ => Except.ok []⟩

example :
    searchAttrPattern "Can't get attribute 'OutlierClipper' on <module 'training_utils' from 'training_utils.py'>" =
      some ("OutlierClipper", "training_utils") := by decide

example : searchAttrPattern "No module named 'sklearn.ensemble.forest'" = none := by decide

example : endsWithJoblib "attrition_model.joblib" = true := by decide

example : endsWithJoblib "employee-attrition.pkl" = false := by decide

example : format2 (27/100) = "0.27" := by norm_num [format2, halfUpCents]; decide

example : format2 (3/5) = "0.60" := by norm_num [format2, halfUpCents]; decide

example : (input_data defaultWidgets).length = 30 := by decide

example :
    runPrediction (stubModel [PyVal.int 1] [[2/5, 3/5]]) (input_data defaultWidgets) =
      [Out.errorBox (leaveMsg (3/5)), Out.writeRule, Out.subheader "🧠 Model Input Data",
       Out.dataframe (input_data defaultWidgets)] := by
  rfl

/-- `(a ++ b).data = a.data ++ b.data` for strings. -/
theorem strData_append (a b : String) : (a ++ b).data = a.data ++ b.data := by
  rw [String.congr_append]

/-- A prediction-failure message never coincides with a leave-decision
message: the two start with different characters. -/
theorem leaveMsg_ne_failMsg (p : ℚ) (e : String) :
    leaveMsg p ≠ "Prediction failed: " ++ e := by
  intro hcontra
  have h1 := congrArg String.data hcontra
  rw [leaveMsg, strData_append, strData_append, strData_append] at h1
  have h2 := congrArg List.head? h1
  have hL : List.head?
      (("⚠️ The employee is **likely to leave**. (Probability: ".data ++
        (format2 p).data) ++ ")".data) = some '⚠' := rfl
  have hR : List.head? ("Prediction failed: ".data ++ e.data) = some 'P' := rfl
  rw [hL, hR] at h2
  exact absurd h2 (by decide)

/-- The branch condition of app.py line 170 holds exactly on the two leave
encodings. -/
theorem isLeave_iff (v : PyVal) :
    isLeave v = true ↔ (v = PyVal.int 1 ∨ v = PyVal.str "Yes") := by
  simp [isLeave, or_comm]

/-- C1: for every set of existing files among the four candidate filenames,
the resolver selects the candidate appearing earliest in the declared priority
order `MODEL_CANDIDATES`; the existence oracle is consulted per candidate in
that order, so no filesystem enumeration order plays any part. `e1..e4` state
which of the four candidates exist. -/
theorem resolver_priority_order (e1 e2 e3 e4 : Bool) :
    (resolvePhase (fun f =>
        if f = "attrition_model.joblib" then e1
        else if f = "employee-attrition.joblib" then e2
        else if f = "employee-attrition.pkl" then e3
        else if f = "attrition_model.pkl" then e4
        else false)).2 =
      (if e1 then some "attrition_model.joblib"
       else if e2 then some "employee-attrition.joblib"
       else if e3 then some "employee-attrition.pkl"
       else if e4 then some "attrition_model.pkl"
       else none) := by
  cases e1 <;> cases e2 <;> cases e3 <;> cases e4 <;> rfl

/-- C3: when zero candidate model files exist, the resolver emits the
no-trained-model error — whose text names all four expected candidate
filenames — and stops; no filename is selected, so no model is loaded. -/
theorem resolver_no_model_halts (ex : String → Bool)
    (h : ∀ f ∈ MODEL_CANDIDATES, ex f = false) :
    resolvePhase ex = ([Out.errorBox noModelMsg, Out.stop], none) ∧
    ∀ f ∈ MODEL_CANDIDATES, List.IsInfix f.toList noModelMsg.toList := by
  constructor
  · have h1 := h "attrition_model.joblib" (by decide)
    have h2 := h "employee-attrition.joblib" (by decide)
    have h3 := h "employee-attrition.pkl" (by decide)
    have h4 := h "attrition_model.pkl" (by decide)
    simp [resolvePhase, MODEL_CANDIDATES, findFound, h1, h2, h3, h4]
  · decide

/-- Witness for C3 at the empty filesystem. -/
theorem resolver_no_model_halts_witness :
    resolvePhase (fun _ => false) = ([Out.errorBox noModelMsg, Out.stop], none) ∧
    ∀ f ∈ MODEL_CANDIDATES, List.IsInfix f.toList noModelMsg.toList :=
  resolver_no_model_halts (fun _ => false) (fun _ _ => rfl)

/-- A deserialization failure message in the exact shape the shim's regex
expects (the `pickle` missing-attribute message). -/
def cexMsg : String :=
  "Can't get attribute 'OutlierClipper' on <module 'training_utils' from 'training_utils.py'>"

/-- C2 counterexample: for the selected candidate `employee-attrition.pkl`
(a `.pkl`, i.e. pickle-format artifact), a deserialization failure whose
message matches the module/attribute pattern triggers NO placeholder
registration and NO reload retry — the load halts immediately — contradicting
the claim that the shim-and-retry behaviour is independent of the
serialization format. -/
theorem shim_pkl_counterexample :
    "employee-attrition.pkl" ∈ MODEL_CANDIDATES ∧
    (resolvePhase (fun f => f = "employee-attrition.pkl")).2 = some "employee-attrition.pkl" ∧
    searchAttrPattern cexMsg = some ("OutlierClipper", "training_utils") ∧
    (loadModel "employee-attrition.pkl"
      ⟨LoadOutcome.attrError cexMsg, none, LoadOutcome.success⟩).2.2.retries = 0 ∧
    (loadModel "employee-attrition.pkl"
      ⟨LoadOutcome.attrError cexMsg, none, LoadOutcome.success⟩).2.2.registrations = [] ∧
    (loadModel "employee-attrition.pkl"
      ⟨LoadOutcome.attrError cexMsg, none, LoadOutcome.success⟩).2.1 = LoadResult.halted := by
  decide

/-- C2 amended: only for a selected `.joblib` artifact does a deserialization
failure with a pattern-matching missing-attribute message lead to exactly one
placeholder registration (under that attribute name in that module) and
exactly one reload retry; a failed retry halts with the specific shim error
(and the trace still shows exactly one retry — no second retry), a
non-matching `AttributeError` halts with the joblib error and no retry, and
any other deserialization error halts with its specific message and no retry.
For a non-`.joblib` (pickle) artifact, every deserialization failure halts
with its specific message, with no registration and no retry. -/
theorem shim_joblib_amended (found : String) (env : DeserEnv) :
    (endsWithJoblib found = true →
      (∀ msg attr mod, env.firstLoad = LoadOutcome.attrError msg →
        searchAttrPattern msg = some (attr, mod) → env.shimSetup = none →
        (loadModel found env).2.2.registrations = [(mod, attr)] ∧
        (loadModel found env).2.2.retries = 1 ∧
        (env.retryLoad = LoadOutcome.success → (loadModel found env).2.1 = LoadResult.loaded) ∧
        (∀ m2, env.retryLoad = LoadOutcome.attrError m2 ∨ env.retryLoad = LoadOutcome.otherError m2 →
          (loadModel found env).2.1 = LoadResult.halted ∧
          Out.errorBox (shimFailMsg attr mod m2) ∈ (loadModel found env).1)) ∧
      (∀ msg, env.firstLoad = LoadOutcome.attrError msg → searchAttrPattern msg = none →
        (loadModel found env).2.1 = LoadResult.halted ∧
        (loadModel found env).2.2.retries = 0 ∧
        (loadModel found env).2.2.registrations = [] ∧
        Out.errorBox (joblibFailMsg found msg) ∈ (loadModel found env).1) ∧
      (∀ msg, env.firstLoad = LoadOutcome.otherError msg →
        (loadModel found env).2.1 = LoadResult.halted ∧
        (loadModel found env).2.2.retries = 0 ∧
        (loadModel found env).2.2.registrations = [] ∧
        Out.errorBox (outerFailMsg found msg) ∈ (loadModel found env).1)) ∧
    (endsWithJoblib found = false →
      ∀ msg, env.firstLoad = LoadOutcome.attrError msg ∨ env.firstLoad = LoadOutcome.otherError msg →
        (loadModel found env).2.1 = LoadResult.halted ∧
        (loadModel found env).2.2.retries = 0 ∧
        (loadModel found env).2.2.registrations = [] ∧
        Out.errorBox (outerFailMsg found msg) ∈ (loadModel found env).1) := by
  obtain ⟨fl, ss, rl⟩ := env
  constructor
  · intro hj
    refine ⟨?_, ?_, ?_⟩
    · rintro msg attr mod rfl hpat rfl
      cases rl <;> simp [loadModel, hj, hpat]
    · rintro msg rfl hpat
      simp [loadModel, hj, hpat]
    · rintro msg rfl
      simp [loadModel, hj]
  · intro hj
    rintro msg (rfl | rfl) <;> simp [loadModel, hj]

/-- C9: the output (and in particular the echoed record) of the second of two
sequential predictions depends only on the loaded model and the widget values
current at that call — replacing the first call's inputs `w1` by any `w1'`
leaves the second call's output unchanged, and that output is exactly the
pure function of `w2`. -/
theorem request_independence (m : PyModel) (w1 w1' w2 : WidgetState) :
    (runTwo m w1 w2).2 = (runTwo m w1' w2).2 ∧
    (runTwo m w1 w2).2 = runPrediction m (input_data w2) :=
  ⟨rfl, rfl⟩

/-- C4: when the prediction chain succeeds with label `v` and probability `p`,
the likely-to-leave message is rendered if and only if `v` is the literal
integer `1` or the literal string `"Yes"`; every other value — `"No"` and `0`
included — renders the likely-to-stay message. -/
theorem label_duality (m : PyModel) (r : Record) (v : PyVal) (p : ℚ)
    (h : predChain m r = Except.ok (v, p)) :
    (runPrediction m r =
        [Out.errorBox (leaveMsg p), Out.writeRule, Out.subheader "🧠 Model Input Data",
         Out.dataframe r] ↔
      (v = PyVal.int 1 ∨ v = PyVal.str "Yes")) ∧
    (¬(v = PyVal.int 1 ∨ v = PyVal.str "Yes") →
      runPrediction m r =
        [Out.successBox (stayMsg p), Out.writeRule, Out.subheader "🧠 Model Input Data",
         Out.dataframe r]) := by
  by_cases hv : v = PyVal.int 1 ∨ v = PyVal.str "Yes"
  · have hl : isLeave v = true := (isLeave_iff v).mpr hv
    simp [runPrediction, h, hl, hv]
  · have hl : isLeave v = false := by
      cases hb : isLeave v
      · rfl
      · exact absurd ((isLeave_iff v).mp hb) hv
    simp [runPrediction, h, hl, hv]

/-- Witness for C4: a stub model returning the label `"No"` renders the
likely-to-stay message. -/
theorem label_duality_witness :
    runPrediction (stubModel [PyVal.str "No"] [[mkRat 73 100, mkRat 27 100]])
        (input_data defaultWidgets) =
      [Out.successBox (stayMsg (mkRat 27 100)), Out.writeRule,
       Out.subheader "🧠 Model Input Data", Out.dataframe (input_data defaultWidgets)] :=
  (label_duality (stubModel [PyVal.str "No"] [[mkRat 73 100, mkRat 27 100]])
    (input_data defaultWidgets) (PyVal.str "No") (mkRat 27 100) rfl).2 (by decide)

/-- C5: whenever `predict` returns a row and `predict_proba` returns a
probability matrix with at least two columns in its first row, the probability
rendered — inside the leave message and inside the stay message alike — is the
second element `p1` of the first probability row, formatted to two decimal
places by `format2`. -/
theorem probability_second_column (m : PyModel) (r : Record) (v : PyVal)
    (vs : List PyVal) (p0 p1 : ℚ) (ps : List ℚ) (rows : List (List ℚ))
    (hp : m.predict r = Except.ok (v :: vs))
    (hq : m.predict_proba r = Except.ok ((p0 :: p1 :: ps) :: rows)) :
    runPrediction m r =
      (if isLeave v then [Out.errorBox (leaveMsg p1)] else [Out.successBox (stayMsg p1)]) ++
        [Out.writeRule, Out.subheader "🧠 Model Input Data", Out.dataframe r] := by
  have hchain : predChain m r = Except.ok (v, p1) := by
    simp only [predChain, hp, hq]
    rfl
  simp [runPrediction, hchain]

/-- Witness for C5: the stub `predict_proba = [[0.73, 0.27]]` with a stay
decision displays the probability `"0.27"`, and the stub
`(label 1, proba [[0.4, 0.6]])` yields the likely-to-leave message
containing `"0.60"`. -/
theorem probability_second_column_witness :
    runPrediction (stubModel [PyVal.str "No"] [[mkRat 73 100, mkRat 27 100]])
        (input_data defaultWidgets) =
      [Out.successBox "✅ The employee is **likely to stay**. (Leave Probability: 0.27)",
       Out.writeRule, Out.subheader "🧠 Model Input Data",
       Out.dataframe (input_data defaultWidgets)] ∧
    runPrediction (stubModel [PyVal.int 1] [[mkRat 2 5, mkRat 3 5]])
        (input_data defaultWidgets) =
      [Out.errorBox "⚠️ The employee is **likely to leave**. (Probability: 0.60)",
       Out.writeRule, Out.subheader "🧠 Model Input Data",
       Out.dataframe (input_data defaultWidgets)] := by
  constructor
  · rw [probability_second_column (stubModel [PyVal.str "No"] [[mkRat 73 100, mkRat 27 100]])
      (input_data defaultWidgets) (PyVal.str "No") [] (mkRat 73 100) (mkRat 27 100) [] [] rfl rfl]
    norm_num [isLeave, stayMsg, format2, halfUpCents]
    decide
  · rw [probability_second_column (stubModel [PyVal.int 1] [[mkRat 2 5, mkRat 3 5]])
      (input_data defaultWidgets) (PyVal.int 1) [] (mkRat 2 5) (mkRat 3 5) [] [] rfl rfl]
    norm_num [isLeave, leaveMsg, format2, halfUpCents]
    decide

/-- C6: every exception raised inside the prediction chain is caught at the
trigger action and reported inline with its message; the handler emits no
`st.stop`, so the process keeps running and the form stays interactive, and
it makes no further prediction attempt of its own. -/
theorem prediction_error_caught (m : PyModel) (r : Record) (e : String)
    (h : predRaises m r e) :
    runPrediction m r = [Out.errorBox ("Prediction failed: " ++ e)] ∧
    Out.stop ∉ runPrediction m r := by
  have hc := predChain_error_of m r e h
  refine ⟨by simp [runPrediction, hc], ?_⟩
  simp [runPrediction, hc]

/-- Witness for C6 at a stub whose `predict` raises. -/
theorem prediction_error_caught_witness :
    runPrediction (failingStub "Found unknown categories") (input_data defaultWidgets) =
      [Out.errorBox ("Prediction failed: " ++ "Found unknown categories")] ∧
    Out.stop ∉ runPrediction (failingStub "Found unknown categories")
      (input_data defaultWidgets) :=
  prediction_error_caught _ _ _ (Or.inl rfl)

/-- C10: when the prediction chain raises, the only output of that attempt is
the failure message: no record echo, no stay message, no leave message, no
rule, no subheader. -/
theorem failure_renders_only_error (m : PyModel) (r : Record) (e : String)
    (h : predRaises m r e) :
    runPrediction m r = [Out.errorBox ("Prediction failed: " ++ e)] ∧
    (∀ rec, Out.dataframe rec ∉ runPrediction m r) ∧
    (∀ s, Out.successBox s ∉ runPrediction m r) ∧
    (∀ p, Out.errorBox (leaveMsg p) ∉ runPrediction m r) ∧
    Out.writeRule ∉ runPrediction m r ∧
    (∀ s, Out.subheader s ∉ runPrediction m r) := by
  have hc := predChain_error_of m r e h
  refine ⟨by simp [runPrediction, hc], ?_, ?_, ?_, ?_, ?_⟩ <;>
    simp [runPrediction, hc]
  intro p
  exact leaveMsg_ne_failMsg p e

/-- Witness for C10 at a stub whose `predict` raises. -/
theorem failure_renders_only_error_witness :
    runPrediction (failingStub "feature names mismatch") (input_data defaultWidgets) =
      [Out.errorBox ("Prediction failed: " ++ "feature names mismatch")] ∧
    (∀ rec, Out.dataframe rec ∉
      runPrediction (failingStub "feature names mismatch") (input_data defaultWidgets)) ∧
    (∀ s, Out.successBox s ∉
      runPrediction (failingStub "feature names mismatch") (input_data defaultWidgets)) ∧
    (∀ p, Out.errorBox (leaveMsg p) ∉
      runPrediction (failingStub "feature names mismatch") (input_data defaultWidgets)) ∧
    Out.writeRule ∉
      runPrediction (failingStub "feature names mismatch") (input_data defaultWidgets) ∧
    (∀ s, Out.subheader s ∉
      runPrediction (failingStub "feature names mismatch") (input_data defaultWidgets)) :=
  failure_renders_only_error _ _ _ (Or.inl rfl)

/-- The widget state of testable property P6: `Age = 45`, `OverTime = "Yes"`,
every other field at its declared default. -/
def c7Widgets : WidgetState :=
  { defaultWidgets with Age := 45, OverTime := "Yes" }

/-- C7 counterexample: the record assembled (and echoed) for the P6 inputs has
30 fields, not 34 — the schema of app.py lines 129-160 holds 23 numeric and
7 categorical columns. -/
theorem field_echo_34_counterexample : (input_data c7Widgets).length ≠ 34 := by
  decide

/-- C7 amended: for inputs `Age = 45` and `OverTime = "Yes"` with all other
fields at their declared defaults, the record echoed after a successful
prediction contains exactly 30 fields, with `Age = 45` and
`OverTime = "Yes"` unchanged. -/
theorem field_echo_30 :
    (input_data c7Widgets).length = 30 ∧
    getField (input_data c7Widgets) "Age" = some (PyVal.int 45) ∧
    getField (input_data c7Widgets) "OverTime" = some (PyVal.str "Yes") ∧
    Out.dataframe (input_data c7Widgets) ∈
      runPrediction (stubModel [PyVal.int 0] [[mkRat 9 10, mkRat 1 10]])
        (input_data c7Widgets) := by
  decide

set_option maxHeartbeats 1600000 in
/-- C8: every record assembled by the form from in-range widget values is
schema-complete and in-domain: all 30 fields are present, numeric fields
respect their declared bounds, ordinal fields lie in their enumerated sets,
and categorical fields lie in their fixed label sets. -/
theorem record_in_domain (w : WidgetState) (h : w.valid) :
    recordValid (input_data w) := by
  obtain ⟨hAge, hDR, hDFH, hEdu, hES, hHR, hJI, hJL, hJS, hMI, hMR, hNCW, hPSH,
    hPR, hRS, hSOL, hTWY, hTTLY, hWLB, hYAC, hYICR, hYSLP, hYWCM, hBT, hDep,
    hEF, hG, hJR, hMS, hOT⟩ := h
  exact ⟨rfl,
    ⟨w.Age, rfl, hAge⟩, ⟨w.DailyRate, rfl, hDR⟩, ⟨w.DistanceFromHome, rfl, hDFH⟩,
    ⟨w.Education, rfl, hEdu⟩, ⟨w.EnvironmentSatisfaction, rfl, hES⟩,
    ⟨w.HourlyRate, rfl, hHR⟩, ⟨w.JobInvolvement, rfl, hJI⟩, ⟨w.JobLevel, rfl, hJL⟩,
    ⟨w.JobSatisfaction, rfl, hJS⟩, ⟨w.MonthlyIncome, rfl, hMI⟩,
    ⟨w.MonthlyRate, rfl, hMR⟩, ⟨w.NumCompaniesWorked, rfl, hNCW⟩,
    ⟨w.PercentSalaryHike, rfl, hPSH⟩, ⟨w.PerformanceRating, rfl, hPR⟩,
    ⟨w.RelationshipSatisfaction, rfl, hRS⟩, ⟨w.StockOptionLevel, rfl, hSOL⟩,
    ⟨w.TotalWorkingYears, rfl, hTWY⟩, ⟨w.TrainingTimesLastYear, rfl, hTTLY⟩,
    ⟨w.WorkLifeBalance, rfl, hWLB⟩, ⟨w.YearsAtCompany, rfl, hYAC⟩,
    ⟨w.YearsInCurrentRole, rfl, hYICR⟩, ⟨w.YearsSinceLastPromotion, rfl, hYSLP⟩,
    ⟨w.YearsWithCurrManager, rfl, hYWCM⟩, ⟨w.BusinessTravel, rfl, hBT⟩,
    ⟨w.Department, rfl, hDep⟩, ⟨w.EducationField, rfl, hEF⟩, ⟨w.Gender, rfl, hG⟩,
    ⟨w.JobRole, rfl, hJR⟩, ⟨w.MaritalStatus, rfl, hMS⟩, ⟨w.OverTime, rfl, hOT⟩⟩

/-- Witness for C8: the declared defaults are valid widget values and the
record they assemble is schema-complete and in-domain. -/
theorem record_in_domain_witness :
    defaultWidgets.valid ∧ recordValid (input_data defaultWidgets) := by
  have hv : defaultWidgets.valid := by
    unfold WidgetState.valid
    decide
  exact ⟨hv, record_in_domain defaultWidgets hv⟩
